import Mathlib

/-!
Verification of the tf-models repository (YOLO nn_blocks, Pix3D TFRecord
conversion script, classification input decoder) against its
natural-language specification.

The Python sources are shallowly embedded: pure computations become Lean
functions, Python exceptions become `Except PyError`, dictionaries become
association lists over `String` keys, and side effects (file creation,
record writing, logging) become explicit effect traces.
-/

namespace TFModels

/-- Python runtime errors that the embedded code can raise. -/
inductive PyError where
  | keyError (k : String)
  | attributeError (a : String)
  | valueError (msg : String)
  | typeError (msg : String)
  | assertionError (msg : String)
  | indexError
  | notFoundError
  deriving Repr, DecidableEq

/-- Python dictionary lookup `d[k]`: returns the value bound to the first
occurrence of key `k`, raising `KeyError` when the key is absent. -/
def dictGet {V : Type} (d : List (String × V)) (k : String) : Except PyError V :=
  match d.find? (fun p => p.1 == k) with
  | some p => .ok p.2
  | none => .error (.keyError k)

/-! Section: ConvBN (nn_blocks.py lines 122-162): claim C6

`ConvBN.build` chooses the normalization sub-layer from the two booleans
`use_bn` / `use_sync_bn`, and sets the convolution bias from `use_bn`;
`ConvBN.call` applies conv, then bn, then activation. -/

/-- The three possible normalization sub-layers `ConvBN.build` can install. -/
inductive NormChoice where
  | syncBatchNorm
  | batchNorm
  | identity
  deriving Repr, DecidableEq

/-- Embeds the normalization selection in `ConvBN.build` (lines 137-149):
`if self._use_bn: (if self._use_sync_bn: SyncBatchNormalization else:
BatchNormalization) else: Identity()`. -/
def ConvBN_norm (use_bn use_sync_bn : Bool) : NormChoice :=
  if use_bn then
    if use_sync_bn then .syncBatchNorm else .batchNorm
  else .identity

/-- Embeds line 123 of `ConvBN.build`: `use_bias = not self._use_bn`,
passed to the inner `Conv2D`. -/
def ConvBN_conv_use_bias (use_bn : Bool) : Bool := !use_bn

/-- Embeds `ConvBN.call` (lines 158-162): `x = self.conv(x); x = self.bn(x);
x = self._activation_fn(x); return x`, over abstract sub-layer functions. -/
def ConvBN_call {α : Type} (conv bn act : α → α) (x : α) : α :=
  act (bn (conv x))

/-! Section: SPP constructor (nn_blocks.py lines 917-923): claim C7 -/

/-- Embeds `SPP.__init__`: stores `list(reversed(sizes))` and raises
`ValueError` when `len(sizes) == 0`; on success the stored size list is
returned. -/
def SPP_init (sizes : List Nat) : Except PyError (List Nat) :=
  let stored := sizes.reverse
  if sizes.length == 0 then
    .error (.valueError "More than one maxpool should be specified in SSP block")
  else
    .ok stored

/-! Section: Theorems for C6 and C7 -/

/-- C6: `ConvBN.build` selects `SyncBatchNormalization` exactly when
`use_bn` and `use_sync_bn` are both true, `BatchNormalization` exactly when
`use_bn` is true and `use_sync_bn` is false, and `Identity` exactly when
`use_bn` is false; the inner `Conv2D` has a bias term iff `use_bn` is
false; and `ConvBN.call` applies convolution, then normalization, then
activation, in that order. -/
theorem convBN_build_call_spec :
    (∀ ub usb : Bool,
      (ConvBN_norm ub usb = .syncBatchNorm ↔ ub = true ∧ usb = true) ∧
      (ConvBN_norm ub usb = .batchNorm ↔ ub = true ∧ usb = false) ∧
      (ConvBN_norm ub usb = .identity ↔ ub = false) ∧
      (ConvBN_conv_use_bias ub = true ↔ ub = false)) ∧
    (∀ (α : Type) (conv bn act : α → α) (x : α),
      ConvBN_call conv bn act x = act (bn (conv x))) := by
  refine ⟨fun ub usb => ?_, fun α conv bn act x => rfl⟩
  cases ub <;> cases usb <;> simp [ConvBN_norm, ConvBN_conv_use_bias]

/-- C7: `SPP.__init__` raises `ValueError` iff the sizes list is empty, and
for every non-empty sizes list (including length one) construction succeeds
with the stored size list being the reverse of the argument. -/
theorem spp_init_spec (sizes : List Nat) :
    ((∃ e, SPP_init sizes = .error e) ↔ sizes = []) ∧
    (sizes ≠ [] → SPP_init sizes = .ok sizes.reverse) := by
  constructor
  · constructor
    · rintro ⟨e, he⟩
      by_contra hne
      simp [SPP_init, List.length_eq_zero, hne] at he
    · rintro rfl
      exact ⟨_, rfl⟩
  · intro hne
    simp [SPP_init, List.length_eq_zero, hne]

/-- Witness for C7: the singleton list `[10]` is accepted and stored
reversed, and the list `[5, 9, 13]` is stored as `[13, 9, 5]`. -/
theorem spp_init_spec_witness :
    SPP_init [5, 9, 13] = .ok [13, 9, 5] ∧ SPP_init [10] = .ok [10] :=
  ⟨(spp_init_spec [5, 9, 13]).2 (by decide), (spp_init_spec [10]).2 (by decide)⟩

/-! Section: CSP topology (nn_blocks.py lines 613-617, 706-711, 788-822):
claims C5 and C8

The claims are about which sub-layer is applied to which branch, so the
tensors are embedded symbolically: a `TExpr` records the exact tree of
convolutions, wrapped-layer applications and concatenations that produced
it. Each named `ConvBN` sub-layer of a block is a `conv` node tagged with
its attribute name in the source. -/

/-- Symbolic tensor expression: the history of operations applied to the
block input. -/
inductive TExpr where
  | input
  | conv (name : String) (t : TExpr)
  | wrapped (idx : Nat) (t : TExpr)
  | concat (ts : List TExpr)

/-- Embeds `CSPRoute.call` (lines 613-617): `x = self._conv1(inputs);
y = self._conv2(x); x = self._conv3(x); return (x, y)`. -/
def CSPRoute_call (inputs : TExpr) : TExpr × TExpr :=
  let x := TExpr.conv "route_conv1" inputs
  let y := TExpr.conv "route_conv2" x
  let x2 := TExpr.conv "route_conv3" x
  (x2, y)

/-- Embeds `CSPConnect.call` (lines 706-711): `x_prev, x_csp = inputs;
x = self._conv1(x_prev); x = self._concat([x, x_csp]);
x = self._conv2(x); return x`. -/
def CSPConnect_call (inputs : TExpr × TExpr) : TExpr :=
  let x := TExpr.conv "connect_conv1" inputs.1
  let x2 := TExpr.concat [x, inputs.2]
  TExpr.conv "connect_conv2" x2

/-- Sequential application of the wrapped layers, in list order: the body
of the `for layer in self._model_to_wrap` loop in `CSPStack.call`. -/
def seqWrap (layers : List Nat) (x : TExpr) : TExpr :=
  layers.foldl (fun acc i => TExpr.wrapped i acc) x

/-- Embeds `CSPStack.call` (lines 817-822): `x, x_route = self._route(inputs);
for layer in self._model_to_wrap: x = layer(x);
x = self._connect([x, x_route]); return x`. -/
def CSPStack_call (modelToWrap : List Nat) (inputs : TExpr) : TExpr :=
  let p := CSPRoute_call inputs
  let x := seqWrap modelToWrap p.1
  CSPConnect_call (x, p.2)

/-- Python values that can be passed as the `model_to_wrap` argument of
`CSPStack.__init__`; callables and lists carry the layer ids they denote. -/
inductive PyVal where
  | noneV
  | callableV (id : Nat)
  | listV (ids : List Nat)
  | intV (n : Int)
  | strV (s : String)
  deriving Repr, DecidableEq

/-- Python `isinstance(v, Callable)`: only objects with `__call__`. -/
def PyVal.isCallable : PyVal → Bool
  | .callableV _ => true
  | _ => false

/-- Python `isinstance(v, List)`. -/
def PyVal.isList : PyVal → Bool
  | .listV _ => true
  | _ => false

/-- The layer id carried by a callable value (unused on other values). -/
def PyVal.callableId : PyVal → Nat
  | .callableV i => i
  | _ => 0

/-- The layer ids carried by a list value (unused on other values). -/
def PyVal.listIds : PyVal → List Nat
  | .listV l => l
  | _ => []

/-- Embeds the `model_to_wrap` handling in `CSPStack.__init__`
(lines 788-797): when not None, a callable is wrapped into a singleton
list, a list is stored as given, and anything else raises `ValueError`;
when None the stored list is empty. -/
def CSPStack_init_wrap (m : PyVal) : Except PyError (List Nat) :=
  if m ≠ PyVal.noneV then
    if m.isCallable then
      .ok [m.callableId]
    else if m.isList then
      .ok m.listIds
    else
      .error (.valueError
        "The input to the CSPStack must be a list of layers that we can iterate through, or a callable")
  else
    .ok []

/-! Section: Classification Decoder (classification_input.py lines 27-36):
claim C10 -/

/-- Symbolic tensor values flowing through the decoder; `jpegEncoded`
models the framework primitive `tf.io.encode_jpeg` as an injective
constructor recording the image and the quality. -/
inductive TfVal where
  | atom (n : Nat)
  | jpegEncoded (img : TfVal) (quality : Nat)
  deriving Repr, DecidableEq

/-- Model of the framework function `tf.io.encode_jpeg(image, quality)`:
treated as an opaque injective operation on the image tagged with the
quality argument. -/
def encode_jpeg (img : TfVal) (quality : Nat) : TfVal :=
  .jpegEncoded img quality

/-- Embeds `Decoder.decode` (lines 30-36): builds the dictionary
`{'image/encoded': tf.io.encode_jpeg(serialized_example['image'], quality=100),
'image/class/label': serialized_example['label']}` and returns it (the
intervening `tf.print` of the jpeg shape does not alter the result). -/
def Decoder_decode (serialized_example : List (String × TfVal)) :
    Except PyError (List (String × TfVal)) := do
  let img ← dictGet serialized_example "image"
  let lab ← dictGet serialized_example "label"
  return [("image/encoded", encode_jpeg img 100), ("image/class/label", lab)]

/-! Section: Theorems for C5, C8, C10 -/

/-- C5: `CSPStack.call` realizes the Cross Stage Partial topology:
`CSPRoute` produces a processed branch `conv3(conv1 inputs)` and a
passthrough branch `conv2(conv1 inputs)` — both convolutions of the same
`conv1` feature map; only the processed branch is fed sequentially (in
list order) through the wrapped layers; and `CSPConnect` convolves the
processed result, concatenates it with the untouched passthrough branch,
and applies a final convolution. -/
theorem cspStack_topology (modelToWrap : List Nat) (inputs : TExpr) :
    CSPStack_call modelToWrap inputs =
      CSPConnect_call
        (seqWrap modelToWrap (CSPRoute_call inputs).1, (CSPRoute_call inputs).2) ∧
    CSPRoute_call inputs =
      (TExpr.conv "route_conv3" (TExpr.conv "route_conv1" inputs),
       TExpr.conv "route_conv2" (TExpr.conv "route_conv1" inputs)) ∧
    (∀ a b : TExpr,
      CSPConnect_call (a, b) =
        TExpr.conv "connect_conv2" (TExpr.concat [TExpr.conv "connect_conv1" a, b])) ∧
    (∀ (i : Nat) (rest : List Nat) (x : TExpr),
      seqWrap (i :: rest) x = seqWrap rest (TExpr.wrapped i x)) := by
  exact ⟨rfl, rfl, fun a b => rfl, fun i rest x => rfl⟩

/-- C8: `CSPStack.__init__` raises `ValueError` iff `model_to_wrap` is not
None, not a Callable and not a List; a single callable is stored as a
one-element list, a list is stored as given, and None yields the empty
list, in which case `CSPStack.call` reduces to `CSPConnect` composed
directly with `CSPRoute`. -/
theorem cspStack_init_spec (m : PyVal) :
    ((∃ e, CSPStack_init_wrap m = .error e) ↔
      (m ≠ .noneV ∧ m.isCallable = false ∧ m.isList = false)) ∧
    (∀ i, m = .callableV i → CSPStack_init_wrap m = .ok [i]) ∧
    (∀ l, m = .listV l → CSPStack_init_wrap m = .ok l) ∧
    (m = .noneV → CSPStack_init_wrap m = .ok []) ∧
    (∀ inputs, CSPStack_call [] inputs = CSPConnect_call (CSPRoute_call inputs)) := by
  refine ⟨?_, ?_, ?_, ?_, fun inputs => rfl⟩
  · cases m <;>
      simp [CSPStack_init_wrap, PyVal.isCallable, PyVal.isList]
  · rintro i rfl; rfl
  · rintro l rfl; rfl
  · rintro rfl; rfl

/-- Witness for C8: an integer argument is rejected with `ValueError`,
while a callable, a list and None are accepted and stored as a singleton,
as given, and as the empty list respectively. -/
theorem cspStack_init_spec_witness :
    (PyVal.intV 3 ≠ PyVal.noneV ∧ (PyVal.intV 3).isCallable = false ∧
      (PyVal.intV 3).isList = false) ∧
    CSPStack_init_wrap (.callableV 7) = .ok [7] ∧
    CSPStack_init_wrap (.listV [1, 2]) = .ok [1, 2] ∧
    CSPStack_init_wrap .noneV = .ok [] := by
  refine ⟨(cspStack_init_spec (.intV 3)).1.mp ?_, ?_, ?_, ?_⟩
  · exact ⟨_, rfl⟩
  · exact (cspStack_init_spec (.callableV 7)).2.1 7 rfl
  · exact (cspStack_init_spec (.listV [1, 2])).2.2.1 [1, 2] rfl
  · exact (cspStack_init_spec .noneV).2.2.2.1 rfl

/-- C10: for every input sample dictionary with `image` and `label`
entries, `Decoder.decode` returns a dictionary with exactly the two keys
`image/encoded` (the JPEG encoding of the image at quality 100) and
`image/class/label` (the label unchanged). -/
theorem decoder_decode_spec (d : List (String × TfVal)) (img lab : TfVal)
    (himg : dictGet d "image" = .ok img) (hlab : dictGet d "label" = .ok lab) :
    Decoder_decode d =
      .ok [("image/encoded", encode_jpeg img 100), ("image/class/label", lab)] := by
  simp only [Decoder_decode, himg, hlab]
  rfl

/-- Witness for C10: decoding a concrete sample with image atom 1 and
label atom 2 yields exactly the two expected entries. -/
theorem decoder_decode_spec_witness :
    Decoder_decode [("image", TfVal.atom 1), ("label", TfVal.atom 2)] =
      .ok [("image/encoded", TfVal.jpegEncoded (TfVal.atom 1) 100),
           ("image/class/label", TfVal.atom 2)] :=
  decoder_decode_spec [("image", TfVal.atom 1), ("label", TfVal.atom 2)]
    (TfVal.atom 1) (TfVal.atom 2) rfl rfl

/-! Section: Pix3D conversion script (create_pix3d_tf_record.py): claims C1, C2

Python values carried in annotation dictionaries and feature dictionaries
are embedded as the inductive `Val`; a `feature` node models the external
`tfrecord_lib.convert_to_feature` wrapper as an injective operation. -/

/-- Python values appearing in the Pix3D manifest and feature dicts. -/
inductive Val where
  | str (s : String)
  | num (n : Int)
  | listOf (vs : List Val)
  | bytes (b : String)
  | feature (v : Val)

/-- Model of the external `tfrecord_lib.convert_to_feature` helper: an
opaque injective wrapper turning a value into a tf.train feature. -/
def convert_to_feature (v : Val) : Val := .feature v

/-- The script calls `os.join(...)` (lines 71, 86, 91, 94, 105, 159), but
the Python `os` module has no attribute `join` (the path-joining function
is `os.path.join`), so evaluating `os.join` raises `AttributeError` before
any file is opened. In Python the callee `os.join` is even evaluated
before its arguments; the embedding places it after the argument lookups,
which yields the same result on every dictionary that has the looked-up
keys. -/
def osJoin (_a _b : Val) : Except PyError Val :=
  .error (.attributeError "join")

/-- Reading a file through `tf.io.gfile.GFile(path, 'rb').read()`: returns
the contents, or raises when the path is not present in the filesystem. -/
def gfileRead (fs : Val → Option Val) (path : Val) : Except PyError Val :=
  match fs path with
  | some c => .ok c
  | none => .error (.notFoundError)

/-- Python tuple unpacking `a, b = v` of a two-element sequence. -/
def unpack2 : Val → Except PyError (Val × Val)
  | .listOf [a, b] => .ok (a, b)
  | _ => .error (.typeError "cannot unpack")

/-- Python `dict` assignment `d[k] = v`: replaces an existing binding or
appends a new one. -/
def dictSet {V : Type} (d : List (String × V)) (k : String) (v : V) :
    List (String × V) :=
  if d.any (fun p => p.1 == k) then
    d.map (fun p => if p.1 == k then (k, v) else p)
  else
    d ++ [(k, v)]

/-- Python `dict.update(us)`: applies each binding of `us` in order. -/
def dictUpdate {V : Type} (d us : List (String × V)) : List (String × V) :=
  us.foldl (fun acc p => dictSet acc p.1 p.2) d

/-- One entry of the `pix3d.json` manifest, with the fields read by
`generate_annotations`. -/
structure Pix3dRecord where
  img : Val
  category : Val
  img_size : Val
  keypoints2d : Val
  mask : Val
  img_source : Val
  model : Val
  model_raw : Val
  model_source : Val
  keypoints3d : Val
  voxel : Val
  rot_mat : Val
  trans_mat : Val
  focal_length : Val
  cam_position : Val
  inplane_rotation : Val
  truncated : Val
  occluded : Val
  slightly_occluded : Val
  bbox : Val

/-- Embeds the dictionary yielded by `generate_annotations` for one
manifest entry (lines 139-144), key for key in source order; note the
source misspells the key `slightly_ocluded` while spelling the value
lookup `image["slightly_occluded"]` correctly. -/
def generateAnnotationEntry (r : Pix3dRecord) (pix3dDir : Val) :
    List (String × Val) :=
  [("img", r.img), ("category", r.category), ("img_size", r.img_size),
   ("2d_keypoints", r.keypoints2d), ("mask", r.mask),
   ("img_source", r.img_source), ("model", r.model),
   ("model_raw", r.model_raw), ("model_source", r.model_source),
   ("3d_keypoints", r.keypoints3d), ("voxel", r.voxel),
   ("rot_mat", r.rot_mat), ("trans_mat", r.trans_mat),
   ("focal_length", r.focal_length), ("cam_position", r.cam_position),
   ("inplane_rotation", r.inplane_rotation), ("truncated", r.truncated),
   ("occluded", r.occluded), ("slightly_ocluded", r.slightly_occluded),
   ("bbox", r.bbox), ("pix3d_dir", pix3dDir)]

/-- Embeds `generate_annotations` over the whole manifest (lines 136-144). -/
def generate_annotations (images : List Pix3dRecord) (pix3dDir : Val) :
    List (List (String × Val)) :=
  images.map (fun r => generateAnnotationEntry r pix3dDir)

/-- Embeds `create_tf_example` (lines 56-133), statement by statement:
file reads through `os.join`, dictionary lookups (including the
misspelled `image["cam_positon"]` on line 111 and the lookup
`image["slightly_occluded"]` on line 115), feature-dict construction and
updates, returning the example feature dictionary and a skipped-count of
0. -/
def create_tf_example (image : List (String × Val)) (fs : Val → Option Val) :
    Except PyError (List (String × Val) × Nat) := do
  let dir ← dictGet image "pix3d_dir"
  let imgPath ← dictGet image "img"
  let p1 ← osJoin dir imgPath
  let encoded_img_jpg ← gfileRead fs p1
  let sz ← dictGet image "img_size"
  let wh ← unpack2 sz
  let img_width := wh.1
  let img_height := wh.2
  let img_filename ← dictGet image "img"
  let img_category ← dictGet image "category"
  let keypoints_2d ← dictGet image "2d_keypoints"
  let feature_dict :=
    [("img/height", convert_to_feature img_height),
     ("img/width", convert_to_feature img_width),
     ("img/category", convert_to_feature img_category),
     ("img/filename", convert_to_feature img_filename),
     ("img/encoded", convert_to_feature encoded_img_jpg),
     ("img/2d_keypoints", convert_to_feature keypoints_2d)]
  let maskPath ← dictGet image "mask"
  let p2 ← osJoin dir maskPath
  let encoded_mask_jpg ← gfileRead fs p2
  let feature_dict := dictUpdate feature_dict
    [("mask", convert_to_feature encoded_mask_jpg)]
  let modelPath ← dictGet image "model"
  let p3 ← osJoin dir modelPath
  let encoded_model ← gfileRead fs p3
  let kp3Path ← dictGet image "3d_keypoints"
  let p4 ← osJoin dir kp3Path
  let keypoints_3d ← gfileRead fs p4
  let model_raw ← dictGet image "model_raw"
  let model_source ← dictGet image "model_source"
  let feature_dict := dictUpdate feature_dict
    [("model", convert_to_feature encoded_model),
     ("model/raw", convert_to_feature model_raw),
     ("model/source", convert_to_feature model_source),
     ("model/3d_keypoints", convert_to_feature keypoints_3d)]
  let voxPath ← dictGet image "voxel"
  let p5 ← osJoin dir voxPath
  let encoded_voxel ← gfileRead fs p5
  let rot_mat ← dictGet image "rot_mat"
  let trans_mat ← dictGet image "trans_mat"
  let focal_length ← dictGet image "focal_length"
  let cam_position ← dictGet image "cam_positon"
  let inplane_rotation ← dictGet image "inplane_rotation"
  let truncated ← dictGet image "truncated"
  let occluded ← dictGet image "occluded"
  let slightly_occluded ← dictGet image "slightly_occluded"
  let bbox ← dictGet image "bbox"
  let feature_dict := dictUpdate feature_dict
    [("voxel", convert_to_feature encoded_voxel),
     ("rot_mat", convert_to_feature rot_mat),
     ("trans_mat", convert_to_feature trans_mat),
     ("focal_length", convert_to_feature focal_length),
     ("cam_position", convert_to_feature cam_position),
     ("inplane_rotation", convert_to_feature inplane_rotation),
     ("truncated", convert_to_feature truncated),
     ("occluded", convert_to_feature occluded),
     ("slightly_occluded", convert_to_feature slightly_occluded),
     ("bbox", convert_to_feature bbox)]
  return (feature_dict, 0)

/-- Observable side effects of the conversion script. -/
inductive Effect where
  | makedirs (d : String)
  | writeShards (outputPath : String) (numShards : Nat)
  | logMsg (msg : String)
  deriving Repr, DecidableEq

/-- Whether an effect is the TFRecord shard write performed by
`tfrecord_lib.write_tf_record_dataset`. -/
def Effect.isWriteShards : Effect → Bool
  | .writeShards _ _ => true
  | _ => false

/-- Python `os.path.dirname`: the path up to (excluding) the last slash. -/
def osPathDirname (s : String) : String :=
  let parts := s.splitOn "/"
  if parts.length ≤ 1 then "" else String.intercalate "/" parts.dropLast

/-- Embeds `_create_tf_record_from_pix3d_dir` (lines 147-167): logs, loads
`pix3d.json` via `json.load(open(os.join(pix3d_dir, "pix3d.json")))` —
where `os.join` raises `AttributeError` — and would otherwise write the
dataset through `tfrecord_lib.write_tf_record_dataset` and log again. -/
def createTfRecordFromPix3dDir (pix3dDir : Val) (outputPath : String)
    (numShards : Nat) : Except PyError (List Effect) := do
  let effs := [Effect.logMsg "writing to output path"]
  let _manifestPath ← osJoin pix3dDir (.str "pix3d.json")
  return effs ++ [.writeShards outputPath numShards,
                  .logMsg "finished writing"]

/-- The effect trace of an `Except`-valued computation (empty on error). -/
def effectsOf : Except PyError (List Effect) → List Effect
  | .ok l => l
  | .error _ => []

/-- Embeds `main` (lines 170-175): asserts that the `pix3d_dir` flag is
set, computes the dirname of `output_file_prefix`, creates it when it is
not a directory — and returns without invoking any conversion. -/
def scriptMain (pix3dDirFlag : List String) (outPath : String)
    (dirIsDir : Bool) : Except PyError (List Effect) :=
  if pix3dDirFlag = [] then
    .error (.assertionError "pix3d_dir missing")
  else
    .ok (if dirIsDir then [] else [.makedirs (osPathDirname outPath)])

/-! Section: Theorems for C1 and C2 -/

/-- C1 (code is wrong): for every flag assignment, the effect trace of the
script entry point `main` contains no TFRecord shard write — `main` only
creates the output directory and returns, never calling
`_create_tf_record_from_pix3d_dir` — and the conversion helper itself
raises `AttributeError` on `os.join` before writing anything. -/
theorem main_never_writes_tf_record :
    (∀ (flag : List String) (out : String) (isdir : Bool),
      ((effectsOf (scriptMain flag out isdir)).all
        (fun e => !e.isWriteShards)) = true) ∧
    (∀ (d : Val) (o : String) (n : Nat),
      createTfRecordFromPix3dDir d o n = .error (.attributeError "join")) := by
  constructor
  · intro flag out isdir
    cases flag with
    | nil => rfl
    | cons a l =>
      cases isdir <;>
        simp [scriptMain, effectsOf, Effect.isWriteShards]
  · intro d o n
    rfl

/-- C2 (code is wrong): for every annotation dictionary produced by
`generate_annotations` and every filesystem, `create_tf_example` raises
`AttributeError` (the `os` module has no `join`), so it never returns the
feature dictionary and skipped-count 0; moreover the annotation dictionary
lacks the key `cam_positon` that line 111 reads and the key
`slightly_occluded` that line 115 reads (the generator emits
`slightly_ocluded`), so even with `os.path.join` the lookups would raise
`KeyError`. -/
theorem create_tf_example_always_raises (r : Pix3dRecord) (dir : Val)
    (fs : Val → Option Val) :
    create_tf_example (generateAnnotationEntry r dir) fs =
      .error (.attributeError "join") ∧
    ¬ "cam_positon" ∈ (generateAnnotationEntry r dir).map Prod.fst ∧
    ¬ "slightly_occluded" ∈ (generateAnnotationEntry r dir).map Prod.fst := by
  refine ⟨rfl, ?_, ?_⟩ <;> simp [generateAnnotationEntry]

/-! Section: Keras serialization round-trip (nn_blocks.py get_config methods):
claim C3

`get_config` is a chain of `self._attr` reads; attribute reads on an
attribute name the constructor never set raise `AttributeError`.
Reconstruction (`Layer(**config)`, as the framework registry's
`from_config` does) raises `TypeError` on any config key that is neither a
constructor keyword nor a base-`Layer` keyword. Only the key structure is
modelled; the claim is about which keys exist and are accepted. -/

/-- Attribute names set by `ConvBN.__init__` (lines 93-118). -/
def convBN_attrs : List String :=
  ["_filters", "_kernel_size", "_strides", "_padding", "_dilation_rate",
   "_kernel_initializer", "_bias_initializer", "_kernel_regularizer",
   "_bias_regularizer", "_use_bn", "_use_sync_bn", "_norm_moment",
   "_norm_epsilon", "_bn_axis", "_activation", "_leaky_alpha"]

/-- The (config key, attribute read) pairs of `ConvBN.get_config`
(lines 166-182), in source order. -/
def convBN_config_entries : List (String × String) :=
  [("filters", "_filters"), ("kernel_size", "_kernel_size"),
   ("strides", "_strides"), ("padding", "_padding"),
   ("dilation_rate", "_dilation_rate"),
   ("kernel_initializer", "_kernel_initializer"),
   ("bias_initializer", "_bias_initializer"),
   ("bias_regularizer", "_bias_regularizer"),
   ("kernel_regularizer", "_kernel_regularizer"),
   ("use_bn", "_use_bn"), ("use_sync_bn", "_use_sync_bn"),
   ("norm_moment", "_norm_moment"), ("norm_epsilon", "_norm_epsilon"),
   ("activation", "_activation"), ("leaky_alpha", "_leaky_alpha")]

/-- Keyword parameters accepted by `ConvBN.__init__` (lines 46-62). -/
def convBN_ctor_params : List String :=
  ["filters", "kernel_size", "strides", "padding", "dilation_rate",
   "kernel_initializer", "bias_initializer", "kernel_regularizer",
   "bias_regularizer", "use_bn", "use_sync_bn", "norm_momentum",
   "norm_epsilon", "activation", "leaky_alpha"]

/-- Attribute names set by `DarkResidual.__init__` (lines 236-255). -/
def darkResidual_attrs : List String :=
  ["_downsample", "_filters", "_filter_scale", "_kernel_initializer",
   "_bias_initializer", "_bias_regularizer", "_use_bn", "_use_sync_bn",
   "_kernel_regularizer", "_norm_moment", "_norm_epsilon",
   "_conv_activation", "_leaky_alpha", "_sc_activation"]

/-- The (config key, attribute read) pairs of `DarkResidual.get_config`
(lines 315-328). -/
def darkResidual_config_entries : List (String × String) :=
  [("filters", "_filters"), ("kernel_initializer", "_kernel_initializer"),
   ("bias_initializer", "_bias_initializer"),
   ("kernel_regularizer", "_kernel_regularizer"),
   ("use_bn", "_use_bn"), ("use_sync_bn", "_use_sync_bn"),
   ("norm_moment", "_norm_moment"), ("norm_epsilon", "_norm_epsilon"),
   ("activation", "_conv_activation"), ("leaky_alpha", "_leaky_alpha"),
   ("sc_activation", "_sc_activation"), ("downsample", "_downsample")]

/-- Keyword parameters accepted by `DarkResidual.__init__`
(lines 195-210). -/
def darkResidual_ctor_params : List String :=
  ["filters", "filter_scale", "kernel_initializer", "bias_initializer",
   "kernel_regularizer", "bias_regularizer", "use_bn", "use_sync_bn",
   "norm_momentum", "norm_epsilon", "activation", "leaky_alpha",
   "sc_activation", "downsample"]

/-- Attribute names set by `CSPTiny.__init__` (lines 395-412): neither
`_strides` nor `_sc_activation` is among them. -/
def cspTiny_attrs : List String :=
  ["_filters", "_kernel_initializer", "_bias_initializer",
   "_bias_regularizer", "_use_bn", "_use_sync_bn", "_kernel_regularizer",
   "_groups", "_group_id", "_downsample", "_norm_moment", "_norm_epsilon",
   "_conv_activation", "_leaky_alpha"]

/-- The (config key, attribute read) pairs of `CSPTiny.get_config`
(lines 485-498): it reads `self._strides` and `self._sc_activation`. -/
def cspTiny_config_entries : List (String × String) :=
  [("filters", "_filters"), ("strides", "_strides"),
   ("kernel_initializer", "_kernel_initializer"),
   ("bias_initializer", "_bias_initializer"),
   ("kernel_regularizer", "_kernel_regularizer"),
   ("use_bn", "_use_bn"), ("use_sync_bn", "_use_sync_bn"),
   ("norm_moment", "_norm_moment"), ("norm_epsilon", "_norm_epsilon"),
   ("activation", "_conv_activation"), ("leaky_alpha", "_leaky_alpha"),
   ("sc_activation", "_sc_activation")]

/-- Keyword arguments the base Keras `Layer.__init__` accepts and the keys
`Layer.get_config` adds (merged into the config by
`layer_config.update(super().get_config())`). -/
def baseLayerKwargs : List String := ["name", "trainable", "dtype"]

/-- Runs a `get_config` body: reads each attribute in order on the given
attribute environment, raising `AttributeError` on the first read of an
attribute that was never set, and finally merges the base layer config
keys; returns the list of config keys. -/
def getConfigKeys (attrs : List String) :
    List (String × String) → Except PyError (List String)
  | [] => .ok baseLayerKwargs
  | (k, a) :: rest =>
    if attrs.contains a then do
      let ks ← getConfigKeys attrs rest
      return k :: ks
    else .error (.attributeError a)

/-- Reconstructing a layer from its config, `Layer(**config)`: raises
`TypeError` at the first config key that is neither a constructor keyword
parameter nor a base-`Layer` keyword (Keras: keyword argument not
understood). -/
def reconstructFromConfig (ctorParams configKeys : List String) :
    Except PyError Unit :=
  match configKeys.find?
      (fun k => !(ctorParams.contains k || baseLayerKwargs.contains k)) with
  | some k => .error (.typeError k)
  | none => .ok ()

/-! Section: Theorem for C3 -/

/-- C3 (code is wrong): the serialization round-trip fails for all three
registered layers. `CSPTiny.get_config` raises `AttributeError` on
`self._strides` (never set by its constructor); `ConvBN.get_config` and
`DarkResidual.get_config` do return key sets, but both contain the key
`norm_moment`, which their constructors (whose parameter is
`norm_momentum`) reject with `TypeError`, so reconstruction from the
returned configuration fails. -/
theorem serialization_round_trip_fails :
    getConfigKeys cspTiny_attrs cspTiny_config_entries =
      .error (.attributeError "_strides") ∧
    getConfigKeys convBN_attrs convBN_config_entries =
      .ok ["filters", "kernel_size", "strides", "padding", "dilation_rate",
           "kernel_initializer", "bias_initializer", "bias_regularizer",
           "kernel_regularizer", "use_bn", "use_sync_bn", "norm_moment",
           "norm_epsilon", "activation", "leaky_alpha",
           "name", "trainable", "dtype"] ∧
    reconstructFromConfig convBN_ctor_params
      ["filters", "kernel_size", "strides", "padding", "dilation_rate",
       "kernel_initializer", "bias_initializer", "bias_regularizer",
       "kernel_regularizer", "use_bn", "use_sync_bn", "norm_moment",
       "norm_epsilon", "activation", "leaky_alpha",
       "name", "trainable", "dtype"] = .error (.typeError "norm_moment") ∧
    getConfigKeys darkResidual_attrs darkResidual_config_entries =
      .ok ["filters", "kernel_initializer", "bias_initializer",
           "kernel_regularizer", "use_bn", "use_sync_bn", "norm_moment",
           "norm_epsilon", "activation", "leaky_alpha", "sc_activation",
           "downsample", "name", "trainable", "dtype"] ∧
    reconstructFromConfig darkResidual_ctor_params
      ["filters", "kernel_initializer", "bias_initializer",
       "kernel_regularizer", "use_bn", "use_sync_bn", "norm_moment",
       "norm_epsilon", "activation", "leaky_alpha", "sc_activation",
       "downsample", "name", "trainable", "dtype"] =
      .error (.typeError "norm_moment") :=
  ⟨rfl, rfl, rfl, rfl, rfl⟩

/-! Section: SPP forward pass (nn_blocks.py lines 925-944): claim C4

Tensors are embedded as 4-D arrays in NHWC layout with total functions as
data; max-pooling with `same` padding and the channel-axis concatenation
of `tf.keras.layers.concatenate` are modelled on the data. -/

/-- A 4-D tensor in (batch, height, width, channels) layout. -/
structure Tensor4 where
  batch : Nat
  height : Nat
  width : Nat
  channels : Nat
  data : Nat → Nat → Nat → Nat → Int

/-- Output spatial dimension of a pooling with `same` padding:
`ceil(d / stride)`. -/
def sameOutDim (d stride : Nat) : Nat := (d + stride - 1) / stride

/-- Maximum of the pooling window of side `size` anchored with `same`
padding at input position `(i, j)`; padded (out-of-range) cells do not
contribute. -/
def poolWindowMax (t : Tensor4) (size b i j c : Nat) : Int :=
  let padBeg := (size - 1) / 2
  let cells := (List.range size).flatMap
    (fun di => (List.range size).map (fun dj => (di, dj)))
  let vals := cells.filterMap (fun p =>
    if padBeg ≤ i + p.1 ∧ i + p.1 - padBeg < t.height ∧
       padBeg ≤ j + p.2 ∧ j + p.2 - padBeg < t.width then
      some (t.data b (i + p.1 - padBeg) (j + p.2 - padBeg) c)
    else none)
  vals.foldl max (vals.headD 0)

/-- `tf.keras.layers.MaxPool2D(pool_size=(size, size), strides=(stride,
stride), padding='same')`: batch and channels are preserved, the spatial
dimensions become `ceil(d / stride)`. -/
def maxPool2dSame (size stride : Nat) (t : Tensor4) : Tensor4 :=
  { batch := t.batch
    height := sameOutDim t.height stride
    width := sameOutDim t.width stride
    channels := t.channels
    data := fun b i j c => poolWindowMax t size b (i * stride) (j * stride) c }

/-- Concatenation of two tensors along the channel (last) axis. -/
def concat2 (t u : Tensor4) : Tensor4 :=
  { batch := t.batch
    height := t.height
    width := t.width
    channels := t.channels + u.channels
    data := fun b i j c =>
      if c < t.channels then t.data b i j c else u.data b i j (c - t.channels) }

/-- `tf.keras.layers.concatenate` over a non-empty list, folded pairwise
from the left. -/
def concatAll : Tensor4 → List Tensor4 → Tensor4
  | t, [] => t
  | t, u :: us => concatAll (concat2 t u) us

/-- Embeds `SPP.call` (lines 938-944): one stride-1 `same`-padding max
pool per stored size, the unmodified input appended last, all concatenated
along the channel axis. (`SPP.__init__` stores the reversed size list; the
stored list is the argument here.) -/
def SPP_call (storedSizes : List Nat) (inputs : Tensor4) : Tensor4 :=
  let outputs := storedSizes.map (fun s => maxPool2dSame s 1 inputs) ++ [inputs]
  match outputs with
  | [] => inputs
  | t :: ts => concatAll t ts

/-! Shape lemmas for the SPP forward pass. -/

lemma sameOutDim_one (d : Nat) : sameOutDim d 1 = d := by
  simp [sameOutDim]

lemma concatAll_batch (ts : List Tensor4) : ∀ t, (concatAll t ts).batch = t.batch := by
  induction ts with
  | nil => intro t; rfl
  | cons u us ih =>
    intro t
    show (concatAll (concat2 t u) us).batch = t.batch
    rw [ih (concat2 t u)]
    rfl

lemma concatAll_height (ts : List Tensor4) : ∀ t, (concatAll t ts).height = t.height := by
  induction ts with
  | nil => intro t; rfl
  | cons u us ih =>
    intro t
    show (concatAll (concat2 t u) us).height = t.height
    rw [ih (concat2 t u)]
    rfl

lemma concatAll_width (ts : List Tensor4) : ∀ t, (concatAll t ts).width = t.width := by
  induction ts with
  | nil => intro t; rfl
  | cons u us ih =>
    intro t
    show (concatAll (concat2 t u) us).width = t.width
    rw [ih (concat2 t u)]
    rfl

lemma concatAll_channels (ts : List Tensor4) :
    ∀ t, (concatAll t ts).channels = t.channels + (ts.map Tensor4.channels).sum := by
  induction ts with
  | nil => intro t; simp [concatAll]
  | cons u us ih =>
    intro t
    show (concatAll (concat2 t u) us).channels = _
    rw [ih (concat2 t u)]
    simp [concat2]
    omega

lemma sum_channels_pools (t : Tensor4) (ss : List Nat) :
    ((ss.map (fun u => maxPool2dSame u 1 t)).map Tensor4.channels).sum =
      ss.length * t.channels := by
  induction ss with
  | nil => simp
  | cons u us ih =>
    simp only [List.map_cons, List.sum_cons, ih]
    show t.channels + us.length * t.channels = (us.length + 1) * t.channels
    ring

lemma concatAll_append_one (us : List Tensor4) :
    ∀ t u, concatAll t (us ++ [u]) = concat2 (concatAll t us) u := by
  induction us with
  | nil => intro t u; rfl
  | cons v vs ih =>
    intro t u
    show concatAll (concat2 t v) (vs ++ [u]) = _
    rw [ih (concat2 t v) u]
    rfl

/-- C4: for every 4-D input and every non-empty size list of length `n`,
the SPP forward pass preserves batch, height and width, multiplies the
channel count by `n + 1`, each individual stride-1 `same` max pool
preserves all dimensions, and the final `channels` channels of the output
are the unmodified input (the passthrough branch concatenated last). -/
theorem spp_call_shape (sizes : List Nat) (t : Tensor4) (hne : sizes ≠ []) :
    (SPP_call sizes t).batch = t.batch ∧
    (SPP_call sizes t).height = t.height ∧
    (SPP_call sizes t).width = t.width ∧
    (SPP_call sizes t).channels = t.channels * (sizes.length + 1) ∧
    (∀ s : Nat, (maxPool2dSame s 1 t).batch = t.batch ∧
      (maxPool2dSame s 1 t).height = t.height ∧
      (maxPool2dSame s 1 t).width = t.width ∧
      (maxPool2dSame s 1 t).channels = t.channels) ∧
    (∀ b i j c, c < t.channels →
      (SPP_call sizes t).data b i j (sizes.length * t.channels + c) =
        t.data b i j c) := by
  obtain ⟨s, ss, rfl⟩ := List.exists_cons_of_ne_nil hne
  have hpool : ∀ u : Nat, (maxPool2dSame u 1 t).batch = t.batch ∧
      (maxPool2dSame u 1 t).height = t.height ∧
      (maxPool2dSame u 1 t).width = t.width ∧
      (maxPool2dSame u 1 t).channels = t.channels := by
    intro u
    refine ⟨rfl, ?_, ?_, rfl⟩ <;> simp [maxPool2dSame, sameOutDim_one]
  have hcall : SPP_call (s :: ss) t =
      concat2 (concatAll (maxPool2dSame s 1 t)
        (ss.map (fun u => maxPool2dSame u 1 t))) t := by
    show concatAll (maxPool2dSame s 1 t)
        (ss.map (fun u => maxPool2dSame u 1 t) ++ [t]) = _
    rw [concatAll_append_one]
  have hAch : (concatAll (maxPool2dSame s 1 t)
      (ss.map (fun u => maxPool2dSame u 1 t))).channels =
      t.channels * (ss.length + 1) := by
    rw [concatAll_channels, sum_channels_pools]
    show t.channels + ss.length * t.channels = t.channels * (ss.length + 1)
    ring
  refine ⟨?_, ?_, ?_, ?_, hpool, ?_⟩
  · rw [hcall]
    show (concatAll (maxPool2dSame s 1 t) _).batch = t.batch
    rw [concatAll_batch]
    exact (hpool s).1
  · rw [hcall]
    show (concatAll (maxPool2dSame s 1 t) _).height = t.height
    rw [concatAll_height]
    exact (hpool s).2.1
  · rw [hcall]
    show (concatAll (maxPool2dSame s 1 t) _).width = t.width
    rw [concatAll_width]
    exact (hpool s).2.2.1
  · rw [hcall]
    show (concatAll (maxPool2dSame s 1 t) _).channels + t.channels = _
    rw [hAch]
    simp [List.length_cons]
    ring
  · intro b i j c hc
    rw [hcall]
    show (if (s :: ss).length * t.channels + c <
        (concatAll (maxPool2dSame s 1 t)
          (ss.map (fun u => maxPool2dSame u 1 t))).channels then _ else _) = _
    rw [hAch]
    have hlen : (s :: ss).length = ss.length + 1 := rfl
    rw [hlen]
    have hnotlt : ¬ (ss.length + 1) * t.channels + c <
        t.channels * (ss.length + 1) := by
      have : (ss.length + 1) * t.channels = t.channels * (ss.length + 1) := by ring
      omega
    rw [if_neg hnotlt]
    have : (ss.length + 1) * t.channels + c - t.channels * (ss.length + 1) = c := by
      have : (ss.length + 1) * t.channels = t.channels * (ss.length + 1) := by ring
      omega
    rw [this]

/-- Concrete 1x1x1x1 tensor used by the C4 witness. -/
def sppWitnessTensor : Tensor4 := ⟨1, 1, 1, 1, fun _ _ _ _ => 7⟩

/-- Witness for C4: the theorem applied to the size list `[2]` and a
concrete 1x1x1x1 tensor. -/
theorem spp_call_shape_witness :
    (SPP_call [2] sppWitnessTensor).channels =
      sppWitnessTensor.channels * (([2] : List Nat).length + 1) ∧
    (SPP_call [2] sppWitnessTensor).data 0 0 0
        (([2] : List Nat).length * sppWitnessTensor.channels + 0) =
      sppWitnessTensor.data 0 0 0 0 :=
  ⟨(spp_call_shape [2] sppWitnessTensor (by decide)).2.2.2.1,
   (spp_call_shape [2] sppWitnessTensor (by decide)).2.2.2.2.2 0 0 0 0
     (by decide)⟩

/-! Section: DarkRouteProcess layer list, build and call (nn_blocks.py
lines 1022-1116): claim C9 -/

/-- The symbolic layer names appearing in
`DarkRouteProcess._get_layer_list`. -/
inductive RouteLayerKind where
  | block
  | sppEntry
  | monoConv
  deriving Repr, DecidableEq

/-- Embeds `DarkRouteProcess._get_layer_list` (lines 1036-1045), with the
derived quantities of `__init__` (lines 1022-1027):
`self._append_conv = (repetitions % 2 == 1)`,
`self._repetitions = repetitions // 2`; `['block'] * self._repetitions`
with `layers[1] = 'spp'` when `self._repetitions > 2 and
self._insert_spp`, and a trailing `'mono_conv'` when `self._append_conv`. -/
def DRP_layer_list (repetitions : Nat) (insertSpp : Bool) :
    List RouteLayerKind :=
  let repHalf := repetitions / 2
  let base :=
    if 0 < repHalf then
      let layers := List.replicate repHalf RouteLayerKind.block
      if 2 < repHalf ∧ insertSpp = true then layers.set 1 .sppEntry
      else layers
    else []
  if repetitions % 2 == 1 then base ++ [.monoConv] else base

/-- The sub-layers `DarkRouteProcess.build` installs. -/
inductive SubLayer where
  | convHalf
  | convFull
  | convMono
  | sppPool
  deriving Repr, DecidableEq

/-- Embeds the expansion done per entry in `DarkRouteProcess.build`
(lines 1088-1102): a `'block'` extends the layers with the two ConvBN of
`_block` (lines 1047-1062), an `'spp'` with the ConvBN-and-SPP pair of
`_spp` (lines 1064-1074), and a `'mono_conv'` appends one ConvBN. -/
def DRP_expand : RouteLayerKind → List SubLayer
  | .block => [.convHalf, .convFull]
  | .sppEntry => [.convHalf, .sppPool]
  | .monoConv => [.convMono]

/-- Embeds `DarkRouteProcess.build`: `self.layers` is the concatenation of
the expansions of the entries of `self.layer_list`, in order. -/
def DRP_build (repetitions : Nat) (insertSpp : Bool) : List SubLayer :=
  (DRP_layer_list repetitions insertSpp).flatMap DRP_expand

/-- Embeds the `while i < self._lim` loop of `DarkRouteProcess.call`
(lines 1106-1116): `layer = self.layers[i]; x_prev = x; x = layer(x);
i += 1`, with Python list indexing raising `IndexError` when `i` is out of
range. -/
def DRP_loop {α : Type} (layers : List (α → α)) (lim : Nat) :
    Nat → α → α → Except PyError (α × α)
  | i, xPrev, x =>
    if _h : i < lim then
      match layers[i]? with
      | some layer => DRP_loop layers lim (i + 1) x (layer x)
      | none => .error .indexError
    else
      .ok (xPrev, x)
  termination_by i => lim - i
  decreasing_by omega

/-- Embeds `DarkRouteProcess.call`: runs the loop from `i = 0` with
`x = x_prev = inputs` and returns `(x_prev, x)`. -/
def DRP_call {α : Type} (layers : List (α → α)) (lim : Nat) (inputs : α) :
    Except PyError (α × α) :=
  DRP_loop layers lim 0 inputs inputs

/-- Sequential application of a list of layer functions, first to last. -/
def seqApply {α : Type} (fs : List (α → α)) (x : α) : α :=
  fs.foldl (fun a f => f a) x

/-- Application of `fs[i], fs[i+1], ..., fs[i+n-1]` in order (stopping
early if the list runs out). -/
def applyFrom {α : Type} (fs : List (α → α)) (i : Nat) : Nat → α → α
  | 0, x => x
  | n + 1, x =>
    match fs[i]? with
    | some f => applyFrom fs (i + 1) n (f x)
    | none => x

lemma applyFrom_zero {α : Type} (fs : List (α → α)) (i : Nat) (x : α) :
    applyFrom fs i 0 x = x := rfl

lemma applyFrom_succ {α : Type} (fs : List (α → α)) (i n : Nat) (x : α)
    (f : α → α) (hf : fs[i]? = some f) :
    applyFrom fs i (n + 1) x = applyFrom fs (i + 1) n (f x) := by
  simp [applyFrom, hf]

lemma DRP_loop_step {α : Type} (fs : List (α → α)) (lim i : Nat)
    (xPrev x : α) (f : α → α) (hi : i < lim) (hf : fs[i]? = some f) :
    DRP_loop fs lim i xPrev x = DRP_loop fs lim (i + 1) x (f x) := by
  rw [DRP_loop]
  simp [hi, hf]

lemma DRP_loop_exit {α : Type} (fs : List (α → α)) (lim i : Nat)
    (xPrev x : α) (hi : ¬ i < lim) :
    DRP_loop fs lim i xPrev x = .ok (xPrev, x) := by
  rw [DRP_loop]
  simp [hi]

lemma DRP_loop_spec {α : Type} (fs : List (α → α)) (lim : Nat)
    (hlen : fs.length = lim) :
    ∀ (k i : Nat) (xPrev x : α), i < lim → lim - i = k →
      DRP_loop fs lim i xPrev x =
        .ok (applyFrom fs i (lim - 1 - i) x, applyFrom fs i (lim - i) x) := by
  intro k
  induction k with
  | zero => intro i xPrev x hi hk; omega
  | succ k ih =>
    intro i xPrev x hi hk
    have hilen : i < fs.length := by omega
    obtain ⟨f, hf⟩ : ∃ f, fs[i]? = some f :=
      ⟨fs[i], List.getElem?_eq_getElem hilen⟩
    rw [DRP_loop_step fs lim i xPrev x f hi hf]
    by_cases hnext : i + 1 < lim
    · rw [ih (i + 1) x (f x) hnext (by omega)]
      have e1 : lim - 1 - i = (lim - 1 - (i + 1)) + 1 := by omega
      have e2 : lim - i = (lim - (i + 1)) + 1 := by omega
      rw [e1, e2, applyFrom_succ fs i _ x f hf, applyFrom_succ fs i _ x f hf]
    · have hend : i + 1 = lim := by omega
      rw [DRP_loop_exit fs lim (i + 1) x (f x) hnext]
      have e1 : lim - 1 - i = 0 := by omega
      have e2 : lim - i = 1 := by omega
      rw [e1, e2, applyFrom_zero, applyFrom_succ fs i 0 x f hf, applyFrom_zero]

lemma applyFrom_eq_seqApply {α : Type} (fs : List (α → α)) :
    ∀ (n i : Nat) (x : α), applyFrom fs i n x = seqApply ((fs.drop i).take n) x := by
  intro n
  induction n with
  | zero => intro i x; simp [applyFrom_zero, seqApply]
  | succ n ih =>
    intro i x
    cases hf : fs[i]? with
    | none =>
      have hle : fs.length ≤ i := by
        by_contra hlt
        rw [List.getElem?_eq_getElem (by omega)] at hf
        exact Option.noConfusion hf
      have hdrop : fs.drop i = [] := List.drop_eq_nil_of_le hle
      simp [applyFrom, hf, hdrop, seqApply]
    | some f =>
      obtain ⟨hilen, hval⟩ := List.getElem?_eq_some.mp hf
      rw [applyFrom_succ fs i n x f hf, ih (i + 1) (f x)]
      have hdrop : fs.drop i = f :: fs.drop (i + 1) := by
        rw [List.drop_eq_getElem_cons hilen, hval]
      rw [hdrop]
      rfl

lemma flatMap_expand_no_mono (l : List RouteLayerKind)
    (h : ∀ k ∈ l, k ≠ RouteLayerKind.monoConv) :
    (l.flatMap DRP_expand).length = 2 * l.length := by
  induction l with
  | nil => rfl
  | cons a l ih =>
    have ha : a ≠ RouteLayerKind.monoConv := h a (List.mem_cons_self a l)
    have hl := ih (fun k hk => h k (List.mem_cons_of_mem a hk))
    cases a with
    | block => simp [List.flatMap_cons, DRP_expand, hl]; ring
    | sppEntry => simp [List.flatMap_cons, DRP_expand, hl]; ring
    | monoConv => exact absurd rfl ha

lemma DRP_base_no_mono (repetitions : Nat) (insertSpp : Bool) :
    ∀ k ∈ (if 0 < repetitions / 2 then
        (if 2 < repetitions / 2 ∧ insertSpp = true then
          (List.replicate (repetitions / 2) RouteLayerKind.block).set 1 .sppEntry
        else List.replicate (repetitions / 2) RouteLayerKind.block)
      else []), k ≠ RouteLayerKind.monoConv := by
  intro k hk
  by_cases h0 : 0 < repetitions / 2
  · rw [if_pos h0] at hk
    by_cases hspp : 2 < repetitions / 2 ∧ insertSpp = true
    · rw [if_pos hspp] at hk
      rcases List.mem_or_eq_of_mem_set hk with hmem | heq
      · have := List.eq_of_mem_replicate hmem
        rw [this]
        intro hc
        exact RouteLayerKind.noConfusion hc
      · rw [heq]
        intro hc
        exact RouteLayerKind.noConfusion hc
    · rw [if_neg hspp] at hk
      have := List.eq_of_mem_replicate hk
      rw [this]
      intro hc
      exact RouteLayerKind.noConfusion hc
  · rw [if_neg h0] at hk
    exact absurd hk (List.not_mem_nil k)

/-- C9: for every configuration with `repetitions ≥ 1` (with or without
`insert_spp`), the number of sub-layers built from the layer list equals
`repetitions` exactly, so the `while i < self._lim` loop of `call` —
which indexes `self.layers[i]` for every `i < repetitions` — never raises
`IndexError`, and `call` returns the pair (output after the first
`repetitions - 1` layers, output after all `repetitions` layers). -/
theorem darkRouteProcess_build_call_spec (repetitions : Nat)
    (insertSpp : Bool) (hr : 1 ≤ repetitions) :
    (DRP_build repetitions insertSpp).length = repetitions ∧
    (∀ (α : Type) (fs : List (α → α)) (x : α), fs.length = repetitions →
      DRP_call fs repetitions x =
        .ok (seqApply (fs.take (repetitions - 1)) x, seqApply fs x)) := by
  constructor
  · show ((DRP_layer_list repetitions insertSpp).flatMap DRP_expand).length
      = repetitions
    rw [DRP_layer_list]
    simp only []
    by_cases hodd : repetitions % 2 == 1
    · rw [if_pos hodd]
      rw [List.flatMap_append]
      rw [List.length_append]
      rw [flatMap_expand_no_mono _ (DRP_base_no_mono repetitions insertSpp)]
      have hlenbase : (if 0 < repetitions / 2 then
          (if 2 < repetitions / 2 ∧ insertSpp = true then
            (List.replicate (repetitions / 2) RouteLayerKind.block).set 1 .sppEntry
          else List.replicate (repetitions / 2) RouteLayerKind.block)
        else ([] : List RouteLayerKind)).length = repetitions / 2 := by
        by_cases h0 : 0 < repetitions / 2
        · rw [if_pos h0]
          by_cases hspp : 2 < repetitions / 2 ∧ insertSpp = true
          · rw [if_pos hspp]
            rw [List.length_set, List.length_replicate]
          · rw [if_neg hspp, List.length_replicate]
        · rw [if_neg h0]
          simp
          omega
      rw [hlenbase]
      have hone : ([RouteLayerKind.monoConv].flatMap DRP_expand).length = 1 := rfl
      rw [hone]
      have : repetitions % 2 = 1 := by
        have := of_decide_eq_true hodd
        omega
      omega
    · rw [if_neg hodd]
      rw [flatMap_expand_no_mono _ (DRP_base_no_mono repetitions insertSpp)]
      have hlenbase : (if 0 < repetitions / 2 then
          (if 2 < repetitions / 2 ∧ insertSpp = true then
            (List.replicate (repetitions / 2) RouteLayerKind.block).set 1 .sppEntry
          else List.replicate (repetitions / 2) RouteLayerKind.block)
        else ([] : List RouteLayerKind)).length = repetitions / 2 := by
        by_cases h0 : 0 < repetitions / 2
        · rw [if_pos h0]
          by_cases hspp : 2 < repetitions / 2 ∧ insertSpp = true
          · rw [if_pos hspp]
            rw [List.length_set, List.length_replicate]
          · rw [if_neg hspp, List.length_replicate]
        · rw [if_neg h0]
          simp
          omega
      rw [hlenbase]
      have : repetitions % 2 = 0 := by
        have : ¬ repetitions % 2 = 1 := fun hc => hodd (by simp [hc])
        omega
      omega
  · intro α fs x hlen
    have h0 : (0 : Nat) < repetitions := hr
    rw [DRP_call, DRP_loop_spec fs repetitions hlen (repetitions - 0) 0 x x h0 rfl]
    rw [applyFrom_eq_seqApply, applyFrom_eq_seqApply]
    have e1 : repetitions - 1 - 0 = repetitions - 1 := by omega
    have e2 : repetitions - 0 = repetitions := by omega
    rw [e1, e2, List.drop_zero, ← hlen, List.take_length]

/-- Witness for C9: `repetitions = 3` builds exactly 3 sub-layers, and the
call loop applied to three concrete functions on `Nat` returns the pair
(after the first two layers, after all three). -/
theorem darkRouteProcess_build_call_spec_witness :
    (DRP_build 3 false).length = 3 ∧
    DRP_call [fun a => a + 1, fun a => a * 2, fun a => a + 5] 3 1 =
      .ok (seqApply (([fun a => a + 1, fun a => a * 2,
            fun a => a + 5] : List (Nat → Nat)).take 2) 1,
          seqApply ([fun a => a + 1, fun a => a * 2,
            fun a => a + 5] : List (Nat → Nat)) 1) :=
  ⟨(darkRouteProcess_build_call_spec 3 false (by decide)).1,
   (darkRouteProcess_build_call_spec 3 false (by decide)).2 Nat
     [fun a => a + 1, fun a => a * 2, fun a => a + 5] 1 rfl⟩

end TFModels
